import Mathlib

/-!
Shallow embedding of `src/MP3LightShow.ino` (Arduino MP3 light-show sketch).

The sketch drives two digital outputs (laser on pin 5, LED on pin 9) and an
MP3 playback shield.  `lightShow_Start` starts track001.mp3 and registers nine
one-shot timer events (`t.after`) that fire the stage callbacks; `loop()`
dispatches serial input, advances the timer, and auto-starts the show once.

Pure/blocking code (the flicker helper and the warmup callback) is embedded as
a generator of pin-event traces; the stateful parts are embedded as explicit
state-passing functions on `SysState`.  `digitalWrite(pin, HIGH/LOW)` becomes
a `Level` assignment, `MP3player.playMP3(name, offset)` becomes an appended
trace event carrying the status code the gateway returns (uint8_t in the
source, modelled as a `Nat` parameter supplied by the environment since the
gateway itself is an external collaborator).
-/

/-- Digital pin level, the HIGH/LOW argument of `digitalWrite`. -/
inductive Level where
  | low
  | high
deriving DecidableEq, Repr

/-- One observable step of the blocking pin code: a `digitalWrite` on the
laser pin or a `delay(ms)` hold. -/
inductive PinEv where
  | write (level : Level)
  | delayMs (ms : Nat)
deriving DecidableEq, Repr

/-- Pin number of the laser output (`int laser = 5`). -/
def laser : Nat := 5

/-- Pin number of the LED output (`int led = 9`). -/
def led : Nat := 9

/-- One iteration of the `for` body of `laserFlicker` (lines 282-293):
HIGH, delay 25, LOW, delay 50, HIGH, delay 25, LOW, delay 50, HIGH,
delay 25, LOW, delay 150. -/
def flickerCycle : List PinEv :=
  [.write .high, .delayMs 25, .write .low, .delayMs 50,
   .write .high, .delayMs 25, .write .low, .delayMs 50,
   .write .high, .delayMs 25, .write .low, .delayMs 150]

/-- The `for(int i = 0; i < pulses; i++)` loop runs the body once per
iteration; with an `int` bound it executes `max pulses 0` times. -/
def laserFlickerLoop : Nat → List PinEv
  | 0 => []
  | n + 1 => flickerCycle ++ laserFlickerLoop n

/-- `void laserFlicker(int pulses)` (lines 280-295): the trace of laser-pin
writes and delays it performs. -/
def laserFlicker (pulses : Int) : List PinEv :=
  laserFlickerLoop pulses.toNat

/-- `void lightShow_LasersWarmup()` (lines 208-228) as the trace of laser-pin
writes and delays it performs, in program order. -/
def lightShow_LasersWarmup : List PinEv :=
  laserFlicker 3 ++ [.delayMs 1000] ++
  laserFlicker 2 ++ [.delayMs 500] ++
  laserFlicker 5 ++ [.delayMs 200] ++
  laserFlicker 2 ++ [.delayMs 500] ++
  laserFlicker 2 ++ [.delayMs 50] ++
  [.write .high] ++ [.delayMs 1000] ++
  laserFlicker 3 ++ [.delayMs 500] ++
  laserFlicker 3 ++ [.write .high] ++
  laserFlicker 3 ++ [.write .high]

/-- The writes of a pin-event trace, in order (delays dropped). -/
def pinWrites (evs : List PinEv) : List Level :=
  evs.filterMap fun e =>
    match e with
    | .write l => some l
    | .delayMs _ => none

/-- The pin level left behind after replaying a trace over a starting level. -/
def applyWrites (evs : List PinEv) (lvl : Level) : Level :=
  evs.foldl (fun cur e =>
    match e with
    | .write l => l
    | .delayMs _ => cur) lvl

/-- Tag for each stage callback registered with the timer by
`lightShow_Start` (the `void lightShow_*()` functions). -/
inductive Callback where
  | lasersWarmup
  | ledOn
  | lasersOn
  | pause
  | stop
  | ledOff
  | playTrack2
deriving DecidableEq, Repr

/-- Observable gateway/scheduler effect: an `MP3player.playMP3(track, offset)`
call together with the status code it returned, or a `t.after(delayMs, cb)`
registration. -/
inductive Ev where
  | playMP3Call (track : String) (offset : Nat) (status : Nat)
  | schedule (delayMs : Nat) (cb : Callback)
deriving DecidableEq, Repr

/-- Whole-program state: the monotonic clock (`millis()`), the two global
flags, the two output pin levels, the timer's pending one-shot events
(absolute deadline, callback; registration order), and the chronological
effect trace. -/
structure SysState where
  now : Nat
  isLightShowPlaying : Bool
  isAutoStartEnabled : Bool
  laserLevel : Level
  ledLevel : Level
  pending : List (Nat × Callback)
  trace : List Ev
deriving DecidableEq, Repr

/-- State after `setup()`: `isLightShowPlaying = false` (line 90),
`isAutoStartEnabled = true` (initializer, line 59), outputs low, no timer
events pending. -/
def initState : SysState :=
  { now := 0
    isLightShowPlaying := false
    isAutoStartEnabled := true
    laserLevel := .low
    ledLevel := .low
    pending := []
    trace := [] }

/-- The stage table of `lightShow_Start` (lines 173-203): the `t.after`
registrations in source order, as (offset from now, callback) pairs.
`stage5` is registered twice, once with `lightShow_LEDOn` and once with
`lightShow_LasersOn`. -/
def stageOffsets : List (Nat × Callback) :=
  [(7000, .lasersWarmup),   -- stage1Event : lightShow_LasersWarmup
   (27500, .ledOn),         -- stage2Event : lightShow_LEDOn
   (40000, .lasersOn),      -- stage3Event : lightShow_LasersOn
   (44000, .pause),         -- stage4Event : lightShow_Pause
   (45000, .ledOn),         -- stage5Event : lightShow_LEDOn
   (45000, .lasersOn),      -- stage5Event2 : lightShow_LasersOn
   (58000, .ledOff),        -- stage6Event : lightShow_LEDOff
   (110000, .stop),         -- stage7Event : lightShow_Stop
   (140000, .playTrack2)]   -- stage8Event : lightShow_PlayTrack2

/-- `void lightShow_Start()` (lines 167-206) with the status code the gateway
returns for the `playMP3` call: sets `isLightShowPlaying = true`, plays
`track001.mp3` at offset 0 (the status is only checked for error printing),
then registers the nine stage events with `t.after`. -/
def lightShow_Start (status : Nat) (s : SysState) : SysState :=
  let s1 := { s with isLightShowPlaying := true }
  let s2 := { s1 with trace := s1.trace ++ [Ev.playMP3Call "track001.mp3" 0 status] }
  { s2 with
    pending := s2.pending ++ stageOffsets.map (fun p => (s2.now + p.1, p.2))
    trace := s2.trace ++ stageOffsets.map (fun p => Ev.schedule p.1 p.2) }

/-- `void lightShow_LasersOn()` (lines 230-233): laser HIGH. -/
def lightShow_LasersOn (s : SysState) : SysState :=
  { s with laserLevel := .high }

/-- `void lightShow_LEDOn()` (lines 235-238): LED HIGH. -/
def lightShow_LEDOn (s : SysState) : SysState :=
  { s with ledLevel := .high }

/-- `void lightShow_LEDOff()` (lines 240-243): LED LOW. -/
def lightShow_LEDOff (s : SysState) : SysState :=
  { s with ledLevel := .low }

/-- `void lightShow_Pause()` (lines 245-249): laser LOW, LED LOW. -/
def lightShow_Pause (s : SysState) : SysState :=
  { s with laserLevel := .low, ledLevel := .low }

/-- `void lightShow_Stop()` (lines 251-256): clears `isLightShowPlaying`,
laser LOW, LED LOW. -/
def lightShow_Stop (s : SysState) : SysState :=
  { s with isLightShowPlaying := false, laserLevel := .low, ledLevel := .low }

/-- `void lightShow_PlayTrack2()` (lines 258-271): plays `track002.mp3` at
offset 0; the returned status is only checked for error printing. -/
def lightShow_PlayTrack2 (status : Nat) (s : SysState) : SysState :=
  { s with trace := s.trace ++ [Ev.playMP3Call "track002.mp3" 0 status] }

/-- Run the stage callback a pending timer event carries.  The blocking
warmup callback only touches the laser pin, so at state level it replays its
write trace onto the laser level. -/
def runCallback (status : Nat) : Callback → SysState → SysState
  | .lasersWarmup, s => { s with laserLevel := applyWrites lightShow_LasersWarmup s.laserLevel }
  | .ledOn, s => lightShow_LEDOn s
  | .lasersOn, s => lightShow_LasersOn s
  | .pause, s => lightShow_Pause s
  | .ledOff, s => lightShow_LEDOff s
  | .stop, s => lightShow_Stop s
  | .playTrack2, s => lightShow_PlayTrack2 status s

/-- Modelled from the spec: stable insertion of a pending event into a list
sorted by deadline, keeping registration order among equal deadlines (spec
section 4.3: fire in deadline order, ties broken by registration order).  The
scheduler itself lives in the borrowed `Timer.h`/`Event.h` library, which is
not under `src/`. -/
def insertByDeadline (e : Nat × Callback) : List (Nat × Callback) → List (Nat × Callback)
  | [] => [e]
  | x :: xs => if x.1 ≤ e.1 then x :: insertByDeadline e xs else e :: x :: xs

/-- Modelled from the spec: stable sort of pending events by deadline
(earliest first, ties in registration order); folding the registration-ordered
list from the left keeps equal deadlines in registration order. -/
def sortByDeadline (l : List (Nat × Callback)) : List (Nat × Callback) :=
  l.foldl (fun acc e => insertByDeadline e acc) []

/-- Modelled from the spec: `t.update()` of the borrowed timer library (not
under `src/`), per spec section 4.3 `poll()`: fire every pending event whose
deadline has elapsed (deadline ≤ now), each exactly once, earliest deadline
first with ties in registration order, and discard fired events. -/
def timerUpdate (status : Nat) (s : SysState) : SysState :=
  let due := sortByDeadline (s.pending.filter fun e => decide (e.1 ≤ s.now))
  let rest := s.pending.filter fun e => decide (s.now < e.1)
  due.foldl (fun st e => runCallback status e.2 st) { s with pending := rest }

/-- `void parse_menu(byte key_command)` (lines 305-311): the byte `'v'`
(ASCII 118) starts the light show; every other byte is ignored. -/
def parse_menu (key_command : Nat) (status : Nat) (s : SysState) : SysState :=
  if key_command = 118 then lightShow_Start status s else s

/-- Environment input for one `loop()` iteration: how far the monotonic clock
advanced since the previous iteration, the at-most-one serial byte available,
and the status code the gateway returns for any `playMP3` issued during the
iteration. -/
structure LoopInput where
  dt : Nat
  serialByte : Option Nat
  status : Nat
deriving DecidableEq, Repr

/-- The serial step of `loop()` (lines 153-155): if a byte is available,
`parse_menu(Serial.read())`. -/
def serialStep (inp : LoopInput) (s : SysState) : SysState :=
  match inp.serialByte with
  | some b => parse_menu b inp.status s
  | none => s

/-- The auto-start step of `loop()` (lines 159-162): if
`isLightShowPlaying == false && isAutoStartEnabled == true`, call
`lightShow_Start()` and then set `isAutoStartEnabled = false`. -/
def autoStartStep (status : Nat) (s : SysState) : SysState :=
  if (s.isLightShowPlaying == false) && (s.isAutoStartEnabled == true) then
    { lightShow_Start status s with isAutoStartEnabled := false }
  else s

/-- The state of one `loop()` iteration just before its auto-start check:
clock advanced, serial byte dispatched, `t.update()` run. -/
def preAutoState (inp : LoopInput) (s : SysState) : SysState :=
  timerUpdate inp.status (serialStep inp { s with now := s.now + inp.dt })

/-- `void loop()` (lines 143-165), one iteration: dispatch serial input, run
`t.update()`, then the guarded auto-start. -/
def loopIter (inp : LoopInput) (s : SysState) : SysState :=
  autoStartStep inp.status (preAutoState inp s)

/-- Run the main loop over a finite stream of inputs starting from a state. -/
def runFrom (s : SysState) (ins : List LoopInput) : SysState :=
  ins.foldl (fun st inp => loopIter inp st) s

/-- Run the main loop over a finite stream of inputs from the post-`setup()`
state. -/
def run (ins : List LoopInput) : SysState :=
  runFrom initState ins

/-- The guard of the auto-start branch
(`isLightShowPlaying == false && isAutoStartEnabled == true`). -/
def autoGuard (s : SysState) : Bool :=
  (s.isLightShowPlaying == false) && (s.isAutoStartEnabled == true)

/-- Whether the auto-start branch fires during iteration `i` (0-based) of the
run over `ins` from the post-`setup()` state: iteration `i` exists and its
pre-auto-check state satisfies the guard. -/
def autoFiresAt (ins : List LoopInput) (i : Nat) : Bool :=
  match ins[i]? with
  | some inp => autoGuard (preAutoState inp (run (ins.take i)))
  | none => false

/-! ## Frame and preservation lemmas for the main-loop flags -/

/-- Every stage callback leaves `isAutoStartEnabled` untouched. -/
theorem runCallback_isAutoStartEnabled (status : Nat) (c : Callback) (s : SysState) :
    (runCallback status c s).isAutoStartEnabled = s.isAutoStartEnabled := by
  cases c <;> rfl

/-- Folding stage callbacks over a state leaves `isAutoStartEnabled` untouched. -/
theorem foldl_runCallback_isAutoStartEnabled (status : Nat)
    (l : List (Nat × Callback)) (s : SysState) :
    (l.foldl (fun st e => runCallback status e.2 st) s).isAutoStartEnabled
      = s.isAutoStartEnabled := by
  induction l generalizing s with
  | nil => rfl
  | cons x xs ih => rw [List.foldl_cons, ih, runCallback_isAutoStartEnabled]

/-- `t.update()` leaves `isAutoStartEnabled` untouched. -/
theorem timerUpdate_isAutoStartEnabled (status : Nat) (s : SysState) :
    (timerUpdate status s).isAutoStartEnabled = s.isAutoStartEnabled := by
  simp only [timerUpdate]
  rw [foldl_runCallback_isAutoStartEnabled]

/-- `lightShow_Start` leaves `isAutoStartEnabled` untouched. -/
theorem lightShow_Start_isAutoStartEnabled (status : Nat) (s : SysState) :
    (lightShow_Start status s).isAutoStartEnabled = s.isAutoStartEnabled := rfl

/-- `parse_menu` leaves `isAutoStartEnabled` untouched. -/
theorem parse_menu_isAutoStartEnabled (k status : Nat) (s : SysState) :
    (parse_menu k status s).isAutoStartEnabled = s.isAutoStartEnabled := by
  unfold parse_menu
  split <;> rfl

/-- The serial-dispatch step leaves `isAutoStartEnabled` untouched. -/
theorem serialStep_isAutoStartEnabled (inp : LoopInput) (s : SysState) :
    (serialStep inp s).isAutoStartEnabled = s.isAutoStartEnabled := by
  cases h : inp.serialByte with
  | none => simp [serialStep, h]
  | some b => simp [serialStep, h, parse_menu_isAutoStartEnabled]

/-- Everything before the auto-start check leaves `isAutoStartEnabled`
untouched. -/
theorem preAutoState_isAutoStartEnabled (inp : LoopInput) (s : SysState) :
    (preAutoState inp s).isAutoStartEnabled = s.isAutoStartEnabled := by
  simp [preAutoState, timerUpdate_isAutoStartEnabled, serialStep_isAutoStartEnabled]

/-- Once `isAutoStartEnabled` is false, the auto-start step keeps it false. -/
theorem autoStartStep_auto_mono (status : Nat) (s : SysState)
    (h : s.isAutoStartEnabled = false) :
    (autoStartStep status s).isAutoStartEnabled = false := by
  simp [autoStartStep, h]

/-- When the auto-start guard holds, the auto-start step calls
`lightShow_Start` and clears `isAutoStartEnabled`. -/
theorem autoStartStep_fires (status : Nat) (s : SysState) (h : autoGuard s = true) :
    (autoStartStep status s).isAutoStartEnabled = false
      ∧ (autoStartStep status s).isLightShowPlaying = true := by
  unfold autoGuard at h
  unfold autoStartStep
  rw [h]
  exact ⟨rfl, rfl⟩

/-- Once `isAutoStartEnabled` is false, a whole loop iteration keeps it
false. -/
theorem loopIter_auto_mono (inp : LoopInput) (s : SysState)
    (h : s.isAutoStartEnabled = false) :
    (loopIter inp s).isAutoStartEnabled = false := by
  unfold loopIter
  exact autoStartStep_auto_mono _ _ ((preAutoState_isAutoStartEnabled inp s).trans h)

/-- Once `isAutoStartEnabled` is false, any further run keeps it false. -/
theorem runFrom_auto_mono (s : SysState) (ins : List LoopInput)
    (h : s.isAutoStartEnabled = false) :
    (runFrom s ins).isAutoStartEnabled = false := by
  induction ins generalizing s with
  | nil => exact h
  | cons x xs ih => exact ih _ (loopIter_auto_mono x s h)

/-- Peeling the last iteration off a prefix run. -/
theorem run_take_succ (ins : List LoopInput) (i : Nat) (inp : LoopInput)
    (h : ins[i]? = some inp) :
    run (ins.take (i + 1)) = loopIter inp (run (ins.take i)) := by
  unfold run runFrom
  rw [List.take_succ, h]
  simp [List.foldl_append]

/-- Splitting a prefix run at an earlier prefix. -/
theorem run_take_split (ins : List LoopInput) (m j : Nat) (h : m ≤ j) :
    run (ins.take j) = runFrom (run (ins.take m)) ((ins.take j).drop m) := by
  unfold run runFrom
  conv_lhs => rw [← List.take_append_drop m (ins.take j)]
  rw [List.foldl_append, List.take_take, Nat.min_eq_left h]

/-! ## Claim theorems -/

/-- C1 (code evaluation at the failing input): the source `lightShow_Start`
has no guard on `isLightShowPlaying`, so calling it, advancing the clock
1000 ms, and calling it again while the show is still playing registers a
second full set of stage events: 18 timer events are pending, not the 9 of a
single set. -/
theorem lightShow_Start_reentry_doubles :
    (lightShow_Start 0 initState).isLightShowPlaying = true
      ∧ (lightShow_Start 0 initState).pending.length = 9
      ∧ (lightShow_Start 0
          { lightShow_Start 0 initState with now := 1000 }).pending.length = 18 :=
  ⟨rfl, rfl, rfl⟩

/-- C2: called from the Idle state, `lightShow_Start` first issues
`playMP3("track001.mp3", 0)` and then registers exactly the nine stage events
with the timer, the fifth deadline (45000 ms) carrying two distinct
callbacks (LED-on and lasers-on). -/
theorem lightShow_Start_from_idle (status : Nat) (s : SysState)
    (_hidle : s.isLightShowPlaying = false) :
    (lightShow_Start status s).trace =
      s.trace ++ Ev.playMP3Call "track001.mp3" 0 status ::
        stageOffsets.map (fun p => Ev.schedule p.1 p.2)
    ∧ (lightShow_Start status s).pending =
        s.pending ++ stageOffsets.map (fun p => (s.now + p.1, p.2))
    ∧ stageOffsets.length = 9
    ∧ (stageOffsets.filter fun p => decide (p.1 = 45000)).map Prod.snd =
        [Callback.ledOn, Callback.lasersOn] := by
  refine ⟨?_, rfl, rfl, rfl⟩
  simp [lightShow_Start]

/-- C2 witness: the Idle hypothesis holds at the post-`setup()` state, and
there the nine stage events are appended. -/
theorem lightShow_Start_from_idle_witness :
    initState.isLightShowPlaying = false
      ∧ (lightShow_Start 0 initState).pending =
          initState.pending ++ stageOffsets.map (fun p => (initState.now + p.1, p.2)) :=
  ⟨rfl, (lightShow_Start_from_idle 0 initState rfl).2.1⟩

set_option maxRecDepth 4000 in
/-- C3: the stage table pairs exactly these offsets with these actions:
warmup at 7000 ms, LED-on at 27500 ms, lasers-on at 40000 ms, pause at
44000 ms, LED-on and lasers-on both at 45000 ms, LED-off at 58000 ms, stop at
110000 ms, play-track-2 at 140000 ms; and the paired actions have the stated
effects (pause drives both outputs low, play-track-2 plays `track002.mp3` at
offset 0, etc.). -/
theorem stage_table_contents (status : Nat) (s : SysState) :
    stageOffsets =
      [(7000, Callback.lasersWarmup), (27500, Callback.ledOn),
       (40000, Callback.lasersOn), (44000, Callback.pause),
       (45000, Callback.ledOn), (45000, Callback.lasersOn),
       (58000, Callback.ledOff), (110000, Callback.stop),
       (140000, Callback.playTrack2)]
    ∧ (lightShow_LEDOn s).ledLevel = Level.high
    ∧ (lightShow_LasersOn s).laserLevel = Level.high
    ∧ (lightShow_Pause s).laserLevel = Level.low
    ∧ (lightShow_Pause s).ledLevel = Level.low
    ∧ (lightShow_LEDOff s).ledLevel = Level.low
    ∧ (lightShow_Stop s).laserLevel = Level.low
    ∧ (lightShow_Stop s).ledLevel = Level.low
    ∧ (runCallback status Callback.lasersWarmup s).laserLevel =
        applyWrites lightShow_LasersWarmup s.laserLevel
    ∧ (lightShow_PlayTrack2 status s).trace =
        s.trace ++ [Ev.playMP3Call "track002.mp3" 0 status] :=
  ⟨rfl, rfl, rfl, rfl, rfl, rfl, rfl, rfl, rfl, rfl⟩

/-- C4: whatever status code `playMP3` returns — success (0) or any failure
code — `lightShow_Start` still registers the full set of stage events
(identically for every status) and sets the show playing; likewise the
track-2 callback leaves the pending events and the playing flag untouched for
every status. -/
theorem playback_status_nonfatal (status : Nat) (s : SysState) :
    (lightShow_Start status s).isLightShowPlaying = true
    ∧ (lightShow_Start status s).pending =
        s.pending ++ stageOffsets.map (fun p => (s.now + p.1, p.2))
    ∧ (lightShow_Start status s).pending = (lightShow_Start 0 s).pending
    ∧ (lightShow_PlayTrack2 status s).pending = s.pending
    ∧ (lightShow_PlayTrack2 status s).isLightShowPlaying = s.isLightShowPlaying :=
  ⟨rfl, rfl, rfl, rfl, rfl⟩

/-- C5 counterexample: a show start through the `'v'` command path
(`parse_menu(118)`) from the post-`setup()` state leaves
`isAutoStartEnabled = true`: `lightShow_Start` itself never clears the
auto-start flag, contradicting the claim that after any call to start() the
auto-start-pending flag is false. -/
theorem start_leaves_autoStartEnabled :
    (parse_menu 118 0 initState).isLightShowPlaying = true
      ∧ (parse_menu 118 0 initState).isAutoStartEnabled = true
      ∧ ¬ ((parse_menu 118 0 initState).isAutoStartEnabled = false) := by
  refine ⟨rfl, rfl, ?_⟩
  intro h
  exact absurd h (by decide)

/-- C5 (amended): `lightShow_Start` sets `isLightShowPlaying` to true and
leaves `isAutoStartEnabled` exactly as it was; the auto-start flag is cleared
only by the main loop's auto-start step, which clears it precisely when its
guard (not playing, auto-start still pending) held. -/
theorem lightShow_Start_flags (status : Nat) (s : SysState) :
    (lightShow_Start status s).isLightShowPlaying = true
    ∧ (lightShow_Start status s).isAutoStartEnabled = s.isAutoStartEnabled
    ∧ (autoStartStep status s).isAutoStartEnabled =
        (if autoGuard s then false else s.isAutoStartEnabled) := by
  refine ⟨rfl, rfl, ?_⟩
  unfold autoStartStep autoGuard
  split <;> rfl

/-- C7: among the stage callbacks only the stop callback modifies
`isLightShowPlaying`, setting it to false; every other stage callback leaves
it unchanged. -/
theorem stage_callbacks_isPlaying_frame (status : Nat) (c : Callback) (s : SysState) :
    (runCallback status c s).isLightShowPlaying =
      (if c = Callback.stop then false else s.isLightShowPlaying) := by
  cases c <;> rfl

/-- C8: `laserFlicker(3)` is exactly three identical cycles of
HIGH 25 ms, LOW 50 ms, HIGH 25 ms, LOW 50 ms, HIGH 25 ms, LOW 150 ms on the
laser pin: 9 on-phases and 9 off-phases in total, ending with the laser
LOW. -/
theorem laserFlicker_three_cycles :
    (let c : List PinEv :=
      [.write .high, .delayMs 25, .write .low, .delayMs 50,
       .write .high, .delayMs 25, .write .low, .delayMs 50,
       .write .high, .delayMs 25, .write .low, .delayMs 150]
     laserFlicker 3 = c ++ c ++ c)
    ∧ (pinWrites (laserFlicker 3)).count Level.high = 9
    ∧ (pinWrites (laserFlicker 3)).count Level.low = 9
    ∧ (pinWrites (laserFlicker 3)).getLast? = some Level.low := by
  refine ⟨?_, ?_, ?_, ?_⟩ <;> decide

/-- C9: for every `pulses ≤ 0` the flicker helper performs no pin writes and
no delays — its trace is empty — and therefore leaves the laser pin level
unchanged. -/
theorem laserFlicker_nonpos (pulses : Int) (h : pulses ≤ 0) :
    laserFlicker pulses = []
      ∧ ∀ lvl, applyWrites (laserFlicker pulses) lvl = lvl := by
  have hz : pulses.toNat = 0 := Int.toNat_of_nonpos h
  unfold laserFlicker
  rw [hz]
  exact ⟨rfl, fun lvl => rfl⟩

/-- C9 witness: at `pulses = -1` the hypothesis holds and the trace is
empty. -/
theorem laserFlicker_nonpos_witness :
    ((-1 : Int) ≤ 0)
      ∧ (laserFlicker (-1) = []
          ∧ ∀ lvl, applyWrites (laserFlicker (-1)) lvl = lvl) :=
  ⟨by decide, laserFlicker_nonpos (-1) (by decide)⟩

/-- C10: the laser-warmup stage callback's final write to the laser pin is
HIGH, and replaying its whole trace from any prior pin level leaves the laser
HIGH. -/
theorem lasersWarmup_ends_high :
    (pinWrites lightShow_LasersWarmup).getLast? = some Level.high
      ∧ ∀ lvl, applyWrites lightShow_LasersWarmup lvl = Level.high := by
  refine ⟨by decide, ?_⟩
  intro lvl
  cases lvl <;> decide

/-- C6: the auto-start branch of `loop()` fires at most once per process run:
if it fires at iteration `i` (the first iteration whose pre-check state
satisfies the guard), the state after iteration `i` has
`isAutoStartEnabled = false`, and at every later iteration `j` the auto-start
branch does not fire again — nothing in the program ever sets
`isAutoStartEnabled` back to true, including the stop stage clearing
`isLightShowPlaying`. -/
theorem autoStart_fires_at_most_once (ins : List LoopInput) (i j : Nat)
    (hij : i < j) (hfire : autoFiresAt ins i = true) :
    (run (ins.take (i + 1))).isAutoStartEnabled = false
      ∧ autoFiresAt ins j = false := by
  unfold autoFiresAt at hfire
  cases h : ins[i]? with
  | none =>
    rw [h] at hfire
    exact absurd hfire (by simp)
  | some inp =>
    rw [h] at hfire
    have h1 : (run (ins.take (i + 1))).isAutoStartEnabled = false := by
      rw [run_take_succ ins i inp h]
      unfold loopIter
      exact (autoStartStep_fires _ _ hfire).1
    refine ⟨h1, ?_⟩
    unfold autoFiresAt
    cases hj : ins[j]? with
    | none => rfl
    | some inpj =>
      have h2 : (run (ins.take j)).isAutoStartEnabled = false := by
        rw [run_take_split ins (i + 1) j hij]
        exact runFrom_auto_mono _ _ h1
      show autoGuard (preAutoState inpj (run (ins.take j))) = false
      unfold autoGuard
      rw [preAutoState_isAutoStartEnabled, h2]
      simp

/-- C6 witness: on the two-iteration input stream with no serial bytes and no
clock advance, the auto-start branch fires at iteration 0; applying the
theorem, the flag is cleared after iteration 0 and the branch does not fire
at iteration 1. -/
theorem autoStart_fires_at_most_once_witness :
    ((0 : Nat) < 1
      ∧ autoFiresAt [⟨0, none, 0⟩, ⟨0, none, 0⟩] 0 = true)
    ∧ ((run (([⟨0, none, 0⟩, ⟨0, none, 0⟩] : List LoopInput).take (0 + 1))).isAutoStartEnabled = false
        ∧ autoFiresAt [⟨0, none, 0⟩, ⟨0, none, 0⟩] 1 = false) :=
  ⟨⟨by decide, by decide⟩,
   autoStart_fires_at_most_once [⟨0, none, 0⟩, ⟨0, none, 0⟩] 0 1 (by decide) (by decide)⟩
